import Mathlib

/-!
Shallow embedding of the request/cache/token-refresh core of the
not-so-fancy-weather front end (the `WeatherCache`, `ApiClient`,
`docSchemaApi`, `weatherApi`, `authApi`, `userApi` objects of the
API-service module, the `AuthProvider` of the auth context module, and the
login page submit handler), together with theorems checking the
natural-language specification against it.
-/

namespace NSFWeather

/-- JavaScript values as they occur in query-parameter maps and response
bodies of this client: strings, numbers, booleans and null.  Numbers are
modelled as integers (the client only ever tests them for truthiness). -/
inductive JsonVal where
  | str (s : String)
  | num (n : Int)
  | bool (b : Bool)
  | null
deriving DecidableEq, Repr

/-- JavaScript truthiness of a `JsonVal`: the empty string, `0`, `false`
and `null` are falsy, everything else truthy. -/
def JsonVal.truthy : JsonVal → Bool
  | .str s => s ≠ ""
  | .num n => n ≠ 0
  | .bool b => b
  | .null => false

/-- A parameter map / JS object: an association list of distinct keys in
insertion order. -/
abbrev Params : Type := List (String × JsonVal)

/-- `JSON.stringify` of a primitive value. -/
def stringifyVal : JsonVal → String
  | .str s => "\"" ++ s ++ "\""
  | .num n => toString n
  | .bool b => if b then "true" else "false"
  | .null => "null"

/-- `JSON.stringify` of an object whose fields are given in order. -/
def stringifyObj (fields : List (String × JsonVal)) : String :=
  "\x7b" ++ String.intercalate ","
    (fields.map (fun kv => "\"" ++ kv.1 ++ "\":" ++ stringifyVal kv.2)) ++ "\x7d"

/-- Lexicographic comparison of strings by their character lists, the
order `Array.prototype.sort()` applies to keys. -/
def strLe (a b : String) : Prop := a.data ≤ b.data

instance : DecidableRel strLe :=
  fun a b => inferInstanceAs (Decidable (a.data ≤ b.data))

/-- `Object.keys(params).sort()`: the keys of the object, sorted
alphabetically. -/
def sortKeys (ks : List String) : List String :=
  ks.insertionSort strLe

/-- `params[key]` for `key` drawn from `Object.keys(params)`. -/
def lookupVal (ps : Params) (k : String) : JsonVal :=
  ((ps : List (String × JsonVal)).lookup k).getD .null

/-- `WeatherCache.generateKey(endpoint, params)`: sort the parameter keys
alphabetically, rebuild the object in sorted-key order and serialize it
after the endpoint. -/
def generateKey (endpoint : String) (ps : Params) : String :=
  let sorted := sortKeys ((ps : List (String × JsonVal)).map Prod.fst)
  endpoint ++ ":" ++ stringifyObj (sorted.map (fun k => (k, lookupVal ps k)))

/-- One entry of a `WeatherCache`: the cached response body and the
`Date.now()` timestamp at which it was stored (milliseconds). -/
structure CacheEntry where
  data : JsonVal
  timestamp : Nat
deriving DecidableEq, Repr

/-- The backing `Map` of a `WeatherCache`, keyed by `generateKey` output. -/
abbrev CacheMap : Type := List (String × CacheEntry)

/-- `Map.delete(key)`. -/
def mapErase (c : CacheMap) (k : String) : CacheMap :=
  (c : List (String × CacheEntry)).filter (fun p => p.1 ≠ k)

/-- `Map.set(key, value)` (keys are unique in a JS `Map`). -/
def mapSet (c : CacheMap) (k : String) (v : CacheEntry) : CacheMap :=
  (k, v) :: mapErase c k

/-- `Map.get(key)`. -/
def mapLookup (c : CacheMap) (k : String) : Option CacheEntry :=
  (c : List (String × CacheEntry)).lookup k

/-- `WeatherCache.get(endpoint, params)` at time `now`: `null` on a miss;
on a hit whose age exceeds `maxAge` the entry is deleted and `null`
returned; otherwise the stored data.  Returns the possibly-evicted map as
well. -/
def cacheGet (c : CacheMap) (maxAge : Nat) (endpoint : String) (ps : Params)
    (now : Nat) : Option JsonVal × CacheMap :=
  let key := generateKey endpoint ps
  match mapLookup c key with
  | none => (none, c)
  | some entry =>
    if now - entry.timestamp > maxAge then (none, mapErase c key)
    else (some entry.data, c)

/-- `WeatherCache.set(endpoint, params, data)` at time `now`. -/
def cacheSet (c : CacheMap) (endpoint : String) (ps : Params) (d : JsonVal)
    (now : Nat) : CacheMap :=
  mapSet c (generateKey endpoint ps) ⟨d, now⟩

/-- Default `WeatherCache` max age: 10 minutes (the `ApiClient` GET cache). -/
def weatherMaxAge : Nat := 10 * 60 * 1000

/-- `userApi._preferencesCache.maxAge`: 5 minutes. -/
def prefsMaxAge : Nat := 5 * 60 * 1000

/-- `docSchemaApi._schemaCacheMaxAge`: 30 minutes. -/
def schemaMaxAge : Nat := 30 * 60 * 1000

/-- Models `String.prototype.trim()` (ASCII whitespace stripped from both
ends). -/
def jsWhitespace (c : Char) : Bool :=
  c == ' ' || c == '\t' || c == '\n' || c == '\r'

/-- `s.trim()`. -/
def jsTrim (s : String) : String :=
  ⟨((s.data.dropWhile jsWhitespace).reverse.dropWhile jsWhitespace).reverse⟩

/-- The three `localStorage` keys the session layer owns: `accessToken`,
`refreshToken` and `username` (each `null` when absent). -/
structure Storage where
  accessToken : Option String
  refreshToken : Option String
  username : Option String
deriving DecidableEq, Repr

/-- An axios request config as the interceptors see it: the URL, the
`_retry` marker the response interceptor attaches, and the
`Authorization` header. -/
structure RequestConfig where
  url : String
  retry : Bool
  authHeader : Option String
deriving DecidableEq, Repr

/-- `error.response`: HTTP status and the `data.detail` field of the error
body (when present). -/
structure HttpResponse where
  status : Nat
  detail : Option String
deriving DecidableEq, Repr

/-- An axios rejection value: the request config it carries, the transport
`code` (e.g. `"ERR_NETWORK"`), the server response when one arrived, and
whether a request object exists (`error.request`). -/
structure AxiosError where
  config : RequestConfig
  code : Option String
  response : Option HttpResponse
  hasRequest : Bool
deriving DecidableEq, Repr

/-- `ApiClient.handleError(error)`: the message of the normalized `Error`
returned for a transport-level failure. -/
def handleError (e : AxiosError) : String :=
  if e.code = some "ERR_NETWORK" then
    "Oops! Cannot connect to the server right now. Try again later."
  else
    match e.response with
    | some r => r.detail.getD "Sorry, could not complete the request."
    | none =>
      if e.hasRequest then "Something happened to your request. Try again later."
      else "Oops! Something went wrong. Try again later."

/-- A value the interceptor can reject with: either a freshly constructed
JS `Error` (identified by its message) or a raw axios error object
propagated as-is. -/
inductive RejectedVal where
  | errorMsg (msg : String)
  | axios (e : AxiosError)
deriving DecidableEq, Repr

/-- Outcome of the out-of-band `POST /v1/refresh` axios call: fulfilled
with an `{access_token, refresh_token}` body, or rejected. -/
inductive RefreshOutcome where
  | ok (accessToken refreshToken : String)
  | err (e : AxiosError)
deriving DecidableEq, Repr

/-- Outcome of the `axios(originalRequest)` replay. -/
inductive ReplayOutcome where
  | fulfilled (data : JsonVal)
  | rejected (e : AxiosError)
deriving DecidableEq, Repr

/-- The behaviour of the remote service for the two network calls the
response interceptor may make on behalf of one failed request. -/
structure Env where
  refresh : RefreshOutcome
  replay : ReplayOutcome
deriving DecidableEq, Repr

/-- A network call made by the response interceptor: the token-refresh
call (carrying the refresh token it sent) or the replay of the original
request (carrying the config it was replayed with). -/
inductive NetCall where
  | refresh (token : String)
  | replay (cfg : RequestConfig)
deriving DecidableEq, Repr

def NetCall.isRefresh : NetCall → Bool
  | .refresh _ => true
  | .replay _ => false

/-- Number of token-refresh calls in a call trace. -/
def refreshCount (l : List NetCall) : Nat :=
  (l.filter NetCall.isRefresh).length

/-- What the interceptor's error handler settles to. -/
inductive InterceptResult where
  | fulfilled (data : JsonVal)
  | rejected (v : RejectedVal)
deriving DecidableEq, Repr

/-- Full observable outcome of one run of the response interceptor's error
handler: its result, the storage afterwards, the network calls it made (in
order), and the config the original request was replayed with, if it was. -/
structure InterceptOutcome where
  result : InterceptResult
  storage : Storage
  calls : List NetCall
  replayConfig : Option RequestConfig
deriving DecidableEq, Repr

/-- `error.response?.status === 401 && !originalRequest._retry`. -/
def is401Untried (e : AxiosError) : Bool :=
  (match e.response with
   | some r => r.status == 401
   | none => false) && !e.config.retry

/-- The `ApiClient` response interceptor's error handler.  On a 401 for a
request not yet marked `_retry`: mark it, read the refresh token (absent →
the thrown "No refresh token available" error is caught, both tokens are
removed and that error rejected); call `POST /v1/refresh` out of band; on
a fulfilled refresh whose `access_token` is falsy the "Invalid token
response from server" error is caught the same way; otherwise persist the
trimmed pair, rewrite the `Authorization` header and replay the original
request once, its settled value passed through as-is; on a rejected
refresh, remove both tokens and reject the refresh error.  Every other
error is rejected as `handleError(error)`. -/
def respondToError (st : Storage) (e : AxiosError) (env : Env) : InterceptOutcome :=
  if is401Untried e then
    match st.refreshToken with
    | none =>
      ⟨.rejected (.errorMsg "No refresh token available"),
       { st with accessToken := none, refreshToken := none }, [], none⟩
    | some rt =>
      match env.refresh with
      | .ok a r =>
        if a = "" then
          ⟨.rejected (.errorMsg "Invalid token response from server"),
           { st with accessToken := none, refreshToken := none },
           [.refresh (jsTrim rt)], none⟩
        else
          let st2 : Storage :=
            { st with accessToken := some (jsTrim a), refreshToken := some (jsTrim r) }
          let cfg2 : RequestConfig :=
            { e.config with retry := true,
                            authHeader := some ("Bearer " ++ jsTrim a) }
          match env.replay with
          | .fulfilled d =>
            ⟨.fulfilled d, st2, [.refresh (jsTrim rt), .replay cfg2], some cfg2⟩
          | .rejected e2 =>
            ⟨.rejected (.axios e2), st2, [.refresh (jsTrim rt), .replay cfg2], some cfg2⟩
      | .err fe =>
        ⟨.rejected (.axios fe),
         { st with accessToken := none, refreshToken := none },
         [.refresh (jsTrim rt)], none⟩
  else
    ⟨.rejected (.errorMsg (handleError e)), st, [], none⟩

/-- Outcome of one network request as seen by `ApiClient.get/post/delete`
(after the interceptor layer has run): fulfilled with the response body,
or rejected with an error. -/
inductive NetResult where
  | ok (data : JsonVal)
  | err (e : AxiosError)
deriving DecidableEq, Repr

/-- Result of an `ApiClient` method call as its caller sees it. -/
inductive FetchResult where
  | success (data : JsonVal)
  | failure (e : AxiosError)
deriving DecidableEq, Repr

/-- Observable outcome of `ApiClient.get`: the value returned or error
thrown, the GET cache afterwards, and whether a network call was made. -/
structure GetOut where
  result : FetchResult
  cache : CacheMap
  networkCalled : Bool
deriving DecidableEq, Repr

/-- The network leg of `ApiClient.get`: perform the request and, on
success, store the body in the cache when `useCache` is set. -/
def clientGetNet (c : CacheMap) (endpoint : String) (ps : Params)
    (useCache : Bool) (now : Nat) (net : NetResult) : GetOut :=
  match net with
  | .ok d => ⟨.success d, if useCache then cacheSet c endpoint ps d now else c, true⟩
  | .err e => ⟨.failure e, c, true⟩

/-- `ApiClient.get(endpoint, params, useCache)` at time `now`, with `net`
the outcome the network would produce: when `useCache` is set, consult the
cache first (lazily evicting an expired entry) and return a cached value
when it is truthy; otherwise hit the network and cache a successful body
when `useCache` is set. -/
def clientGet (c : CacheMap) (endpoint : String) (ps : Params)
    (useCache : Bool) (now : Nat) (net : NetResult) : GetOut :=
  if useCache then
    match cacheGet c weatherMaxAge endpoint ps now with
    | (some d, c1) =>
      if d.truthy then ⟨.success d, c1, false⟩
      else clientGetNet c1 endpoint ps useCache now net
    | (none, c1) => clientGetNet c1 endpoint ps useCache now net
  else clientGetNet c endpoint ps useCache now net

/-- `ApiClient.post(endpoint, data)`: always a network call; the cache is
neither consulted nor updated. -/
def clientPost (c : CacheMap) (net : NetResult) : GetOut :=
  match net with
  | .ok d => ⟨.success d, c, true⟩
  | .err e => ⟨.failure e, c, true⟩

/-- `ApiClient.delete(endpoint, data)`: always a network call; the cache
is neither consulted nor updated. -/
def clientDelete (c : CacheMap) (net : NetResult) : GetOut :=
  match net with
  | .ok d => ⟨.success d, c, true⟩
  | .err e => ⟨.failure e, c, true⟩

/-- `userApi._preferencesCache` (and, with its own max age,
`docSchemaApi`'s schema cache): a single cached body plus the timestamp of
its storage; `data = none` models the `null` reset state. -/
structure SingleCache where
  data : Option JsonVal
  timestamp : Nat
deriving DecidableEq, Repr

/-- Observable outcome of `userApi.getPreferences()`: the result, the
preferences cache and the `ApiClient` GET cache afterwards, and whether
any network call was made. -/
structure PrefsOut where
  result : FetchResult
  prefs : SingleCache
  generic : CacheMap
  networkCalled : Bool
deriving DecidableEq, Repr

/-- The fetch leg of `getPreferences`: `apiClient.get("/v1/user/preferences")`
(with the default `useCache = true`), updating the preferences cache on
success and leaving it untouched on failure. -/
def prefsFetch (pc : SingleCache) (gc : CacheMap) (now : Nat)
    (net : NetResult) : PrefsOut :=
  let g := clientGet gc "/v1/user/preferences" [] true now net
  match g.result with
  | .success d => ⟨.success d, ⟨some d, now⟩, g.cache, g.networkCalled⟩
  | .failure e => ⟨.failure e, pc, g.cache, g.networkCalled⟩

/-- `userApi.getPreferences()` at time `now`: return the cached
preferences when `_preferencesCache.data` is truthy and younger (strictly)
than its max age, else fetch through the `ApiClient`. -/
def getPreferences (pc : SingleCache) (gc : CacheMap) (now : Nat)
    (net : NetResult) : PrefsOut :=
  match pc.data with
  | some d =>
    if d.truthy && decide (now - pc.timestamp < prefsMaxAge) then
      ⟨.success d, pc, gc, false⟩
    else prefsFetch pc gc now net
  | none => prefsFetch pc gc now net

/-- Observable outcome of `docSchemaApi.getOpenAPISchema()`. -/
structure SchemaOut where
  result : FetchResult
  schema : SingleCache
  networkCalled : Bool
deriving DecidableEq, Repr

/-- The fetch leg of `getOpenAPISchema`: a direct `axios.get` (no
`ApiClient` cache involved), updating the schema cache on success. -/
def schemaFetch (sc : SingleCache) (now : Nat) (net : NetResult) : SchemaOut :=
  match net with
  | .ok d => ⟨.success d, ⟨some d, now⟩, true⟩
  | .err e => ⟨.failure e, sc, true⟩

/-- `docSchemaApi.getOpenAPISchema()` at time `now`: return the cached
schema when `_schemaCache` is truthy and younger (strictly) than
`_schemaCacheMaxAge`, else fetch directly. -/
def getOpenAPISchema (sc : SingleCache) (now : Nat) (net : NetResult) : SchemaOut :=
  match sc.data with
  | some d =>
    if d.truthy && decide (now - sc.timestamp < schemaMaxAge) then
      ⟨.success d, sc, false⟩
    else schemaFetch sc now net
  | none => schemaFetch sc now net

/-- Process-wide client state relevant to the session layer: durable
storage, the React `user` state of the `AuthProvider`, the two
specialized caches and the `ApiClient` GET cache. -/
structure AppState where
  storage : Storage
  user : Option String
  prefs : SingleCache
  schema : SingleCache
  generic : CacheMap
deriving DecidableEq, Repr

/-- `AuthProvider.logout()`: when an access token is stored, call the
remote logout endpoint (any failure is caught and tolerated); in the
`finally` block remove `accessToken`, `refreshToken` and `username`,
clear the preferences cache and set `user` to `null`.  Neither the schema
cache nor the `ApiClient` GET cache is touched.  Returns the new state and
whether the remote call was attempted. -/
def logout (s : AppState) (net : NetResult) : AppState × Bool :=
  let called := s.storage.accessToken.isSome
  let _ := net
  (⟨⟨none, none, none⟩, none, ⟨none, 0⟩, s.schema, s.generic⟩, called)

/-- Outcome of `AuthProvider.refreshToken()`: the new access token and
state on success, or the failing state (the function rethrows). -/
inductive AuthRefreshOut where
  | ok (st : Storage) (user : Option String) (token : String)
  | fail (st : Storage) (user : Option String)
deriving DecidableEq, Repr

/-- `AuthProvider.refreshToken()`: read the stored refresh token (absent →
throw); call `authApi.refreshToken` directly; on success store the new
pair (untrimmed, as the provider does) and return the access token; on any
failure remove all three keys, set `user` to `null` and rethrow. -/
def authRefresh (st : Storage) (user : Option String)
    (net : RefreshOutcome) : AuthRefreshOut :=
  match st.refreshToken with
  | none => .fail ⟨none, none, none⟩ none
  | some _ =>
    match net with
    | .ok a r => .ok { st with accessToken := some a, refreshToken := some r } user a
    | .err _ => .fail ⟨none, none, none⟩ none

/-- `checkAuth` (the `AuthProvider` mount effect): with a stored access
token but no stored username, remove all three keys; with both, set the
user and — when the token's decoded expiry claim (`exp`, in ms; `none`
models a decode failure, which is tolerated) is within 5 minutes of `now`
or past — refresh proactively, the surrounding catch removing all three
keys on a refresh failure. -/
def checkAuth (st : Storage) (now : Nat) (tokenExp : Option Nat)
    (net : RefreshOutcome) : Storage × Option String :=
  match st.accessToken with
  | none => (st, none)
  | some _ =>
    match st.username with
    | none => (⟨none, none, none⟩, none)
    | some u =>
      match tokenExp with
      | none => (st, some u)
      | some e =>
        if now > e - 5 * 60 * 1000 then
          match authRefresh st (some u) net with
          | .ok st2 user2 _ => (st2, user2)
          | .fail _ _ => (⟨none, none, none⟩, none)
        else (st, some u)

/-- What the login page's submit handler does with the two field values:
fail client-side with a form error, or proceed to `login` (which issues
the network request). -/
inductive SubmitResult where
  | formError (msg : String)
  | loginAttempt (username password : String)
deriving DecidableEq, Repr

/-- `LoginPage.handleSubmit`: basic form validation before anything else —
a blank username, then an empty password, each set a form error and
return; only past both guards is `login(username, password)` invoked. -/
def handleSubmit (username password : String) : SubmitResult :=
  if jsTrim username = "" then .formError "Username is required"
  else if password = "" then .formError "Password is required"
  else .loginAttempt username password

/-- Network requests the submit flow sends to the server: none on a form
error; the login POST once the guards pass. -/
def submitNetworkCalls (username password : String) : Nat :=
  match handleSubmit username password with
  | .formError _ => 0
  | .loginAttempt _ _ => 1

/-- The argument object of `weatherApi.getForecast(params)`: each field
`undefined` (`none`) or a value. -/
structure ForecastParams where
  lat : Option JsonVal
  lon : Option JsonVal
  zipCode : Option JsonVal
  cityName : Option JsonVal
  cityId : Option JsonVal
deriving DecidableEq, Repr

/-- `if (params.x) filteredParams.y = params.x` — keep a field only when
present and truthy. -/
def keepIf (name : String) (v : Option JsonVal) : List (String × JsonVal) :=
  match v with
  | some x => if x.truthy then [(name, x)] else []
  | none => []

/-- The `filteredParams` object `weatherApi.getForecast` builds before
calling `apiClient.get("/weather/forecast", filteredParams)`. -/
def filterForecastParams (p : ForecastParams) : Params :=
  keepIf "lat" p.lat ++ keepIf "lon" p.lon ++ keepIf "zip_code" p.zipCode ++
    keepIf "city_name" p.cityName ++ keepIf "city_id" p.cityId

/-- `weatherApi.getForecast(params)` at time `now`: the cached,
authenticated GET on the filtered parameters. -/
def getForecast (p : ForecastParams) (c : CacheMap) (now : Nat)
    (net : NetResult) : GetOut :=
  clientGet c "/weather/forecast" (filterForecastParams p) true now net

/-! ## Order facts about the key sort -/

instance : IsTotal String strLe := ⟨fun a b => le_total a.data b.data⟩

instance : IsTrans String strLe := ⟨fun _ _ _ h1 h2 => le_trans h1 h2⟩

instance : IsAntisymm String strLe := by
  constructor
  intro a b h1 h2
  cases a with
  | mk da =>
    cases b with
    | mk db =>
      exact congrArg String.mk (le_antisymm h1 h2)

theorem sortKeys_perm (ks : List String) : (sortKeys ks).Perm ks :=
  List.perm_insertionSort strLe ks

theorem sortKeys_sorted (ks : List String) : (sortKeys ks).Sorted strLe :=
  List.sorted_insertionSort strLe ks

theorem sortKeys_eq_of_perm {ks1 ks2 : List String} (h : ks1.Perm ks2) :
    sortKeys ks1 = sortKeys ks2 :=
  List.eq_of_perm_of_sorted
    ((sortKeys_perm ks1).trans (h.trans (sortKeys_perm ks2).symm))
    (sortKeys_sorted ks1) (sortKeys_sorted ks2)

/-- Looking a key up in an association list with distinct keys is
invariant under permutation of the list. -/
theorem lookup_eq_of_perm {l1 l2 : List (String × JsonVal)} (h : l1.Perm l2)
    (nd : (l1.map Prod.fst).Nodup) (k : String) :
    l1.lookup k = l2.lookup k := by
  induction h with
  | nil => rfl
  | cons x h ih =>
    rcases x with ⟨xk, xv⟩
    simp only [List.map_cons, List.nodup_cons] at nd
    cases hbeq : (k == xk) with
    | true => simp [List.lookup, hbeq]
    | false => simp [List.lookup, hbeq, ih nd.2]
  | swap x y l =>
    rcases x with ⟨xk, xv⟩
    rcases y with ⟨yk, yv⟩
    simp only [List.map_cons, List.nodup_cons, List.mem_cons] at nd
    have hne : yk ≠ xk := fun hkk => nd.1 (Or.inl hkk)
    cases hbk : (k == yk) with
    | true =>
      have hky : k = yk := by simpa using hbk
      have hbx : (k == xk) = false := by
        subst hky
        simpa using hne
      simp [List.lookup, hbk, hbx]
    | false => cases hbx : (k == xk) with
      | true => simp [List.lookup, hbk, hbx]
      | false => simp [List.lookup, hbk, hbx]
  | trans h1 h2 ih1 ih2 =>
    rw [ih1 nd, ih2 (((h1.map Prod.fst).nodup_iff).mp nd)]

/-- C5 — Cache key determinism: `WeatherCache.generateKey` yields the same
string for any two parameter objects holding the same key/value bindings
in any order (keys of a JS object being distinct). -/
theorem generateKey_det (ep : String) (p1 p2 : Params) (hperm : p1.Perm p2)
    (hnd : (p1.map Prod.fst).Nodup) :
    generateKey ep p1 = generateKey ep p2 := by
  have hkeys : (p1.map Prod.fst).Perm (p2.map Prod.fst) := hperm.map Prod.fst
  have hlam : (fun k => (k, lookupVal p1 k)) = (fun k => (k, lookupVal p2 k)) := by
    funext k
    have : lookupVal p1 k = lookupVal p2 k := by
      unfold lookupVal
      rw [lookup_eq_of_perm hperm hnd k]
    rw [this]
  unfold generateKey
  rw [sortKeys_eq_of_perm hkeys, hlam]

/-- C5 witness: the spec's own example
`key(endpoint, assign(a:1,b:2)) = key(endpoint, assign(b:2,a:1))`. -/
theorem generateKey_det_witness :
    (([("a", JsonVal.num 1), ("b", JsonVal.num 2)] : Params).Perm
        [("b", JsonVal.num 2), ("a", JsonVal.num 1)]) ∧
    generateKey "/weather/forecast" [("a", JsonVal.num 1), ("b", JsonVal.num 2)] =
      generateKey "/weather/forecast" [("b", JsonVal.num 2), ("a", JsonVal.num 1)] :=
  ⟨by decide,
   generateKey_det "/weather/forecast" _ _ (by decide) (by decide)⟩

/-! ## Concrete fixtures for the interceptor scenarios -/

/-- A request that has just received its first 401. -/
def eFirst : AxiosError :=
  ⟨⟨"/v1/user/me", false, some "Bearer oldA"⟩, none, some ⟨401, none⟩, true⟩

/-- The replayed request, already marked `_retry`, receiving a second 401. -/
def eRetried : AxiosError :=
  ⟨⟨"/v1/user/me", true, some "Bearer newA"⟩, none, some ⟨401, none⟩, true⟩

/-- Storage holding a full session. -/
def stFull : Storage := ⟨some "oldA", some "oldR", some "alice"⟩

/-- Environment: the refresh succeeds, the replay receives a second 401. -/
def envSecond401 : Env := ⟨.ok "newA" "newR", .rejected eRetried⟩

/-- Environment: the refresh succeeds, the replay fulfils with a 200 body. -/
def envOk : Env := ⟨.ok "newA" "newR", .fulfilled (.str "okBody")⟩

/-- The rejection produced by a failing `POST /v1/refresh` call. -/
def eRefreshFail : AxiosError :=
  ⟨⟨"/v1/refresh", false, none⟩, none, some ⟨401, some "Invalid refresh token"⟩, true⟩

/-- Environment: the refresh call itself is rejected. -/
def envRefreshFail : Env := ⟨.err eRefreshFail, .fulfilled .null⟩

/-! ## C1 — single-retry invariant -/

/-- C1 — Single-retry invariant: every run of the response interceptor's
error handler makes at most one token-refresh call; a request already
marked `_retry` has its error propagated with no network call at all; and
in the `[401, 401]` scenario (first 401 on an untried request, refresh
succeeds, replay rejected with a second 401) exactly one refresh call is
observed and the second 401 is propagated to the caller as-is. -/
theorem single_retry_invariant (st : Storage) (e : AxiosError) (env : Env) :
    refreshCount (respondToError st e env).calls ≤ 1 ∧
    (e.config.retry = true →
      (respondToError st e env).calls = [] ∧
      (respondToError st e env).result = .rejected (.errorMsg (handleError e))) ∧
    (∀ r rt a rn e2, e.response = some r → r.status = 401 → e.config.retry = false →
      st.refreshToken = some rt → env.refresh = .ok a rn → ¬ a = "" →
      env.replay = .rejected e2 →
      refreshCount (respondToError st e env).calls = 1 ∧
      (respondToError st e env).result = .rejected (.axios e2)) := by
  refine ⟨?_, ?_, ?_⟩
  · unfold respondToError
    by_cases h : is401Untried e
    · cases hrt : st.refreshToken with
      | none => simp [h, hrt, refreshCount]
      | some rt =>
        cases hr : env.refresh with
        | ok a r =>
          by_cases ha : a = ""
          · simp [h, hrt, hr, ha, refreshCount, NetCall.isRefresh]
          · cases hp : env.replay with
            | fulfilled d =>
              simp [h, hrt, hr, ha, hp, refreshCount, NetCall.isRefresh, List.filter]
            | rejected e2 =>
              simp [h, hrt, hr, ha, hp, refreshCount, NetCall.isRefresh, List.filter]
        | err fe => simp [h, hrt, hr, refreshCount, NetCall.isRefresh, List.filter]
    · simp [h, refreshCount]
  · intro hretry
    have h : is401Untried e = false := by
      simp [is401Untried, hretry]
    simp [respondToError, h]
  · intro r rt a rn e2 hresp hstat hretry hrt hr ha hp
    have h : is401Untried e = true := by
      simp [is401Untried, hresp, hstat, hretry]
    simp [respondToError, h, hrt, hr, ha, hp, refreshCount, NetCall.isRefresh, List.filter]

/-- C1 witness: the already-retried request propagates without calls, and
the concrete `[401, 401]` run makes exactly one refresh call and
propagates the second 401. -/
theorem single_retry_invariant_witness :
    ((respondToError stFull eRetried envSecond401).calls = [] ∧
      (respondToError stFull eRetried envSecond401).result =
        .rejected (.errorMsg (handleError eRetried))) ∧
    refreshCount (respondToError stFull eFirst envSecond401).calls = 1 ∧
    (respondToError stFull eFirst envSecond401).result = .rejected (.axios eRetried) :=
  ⟨(single_retry_invariant stFull eRetried envSecond401).2.1 rfl,
   (single_retry_invariant stFull eFirst envSecond401).2.2
     ⟨401, none⟩ "oldR" "newA" "newR" eRetried rfl rfl rfl rfl rfl (by decide) rfl⟩

/-! ## C2 — refresh success replays the original request -/

/-- C2 — On a first 401 with a refresh token in storage and a successful
refresh carrying a truthy access token: the trimmed new pair is persisted,
the original request's `Authorization` header is rewritten to the new
access token, the original request is replayed exactly once, and the
replay's settled value (fulfilled or rejected) is returned to the caller
as-is. -/
theorem refresh_success_replays (st : Storage) (e : AxiosError) (env : Env)
    (r : HttpResponse) (rt a rn : String)
    (h1 : e.response = some r) (h2 : r.status = 401) (h3 : e.config.retry = false)
    (h4 : st.refreshToken = some rt) (h5 : env.refresh = .ok a rn) (h6 : ¬ a = "") :
    (respondToError st e env).storage =
      { st with accessToken := some (jsTrim a), refreshToken := some (jsTrim rn) } ∧
    (respondToError st e env).replayConfig =
      some { e.config with retry := true, authHeader := some ("Bearer " ++ jsTrim a) } ∧
    (respondToError st e env).calls =
      [.refresh (jsTrim rt),
       .replay { e.config with retry := true, authHeader := some ("Bearer " ++ jsTrim a) }] ∧
    (∀ d, env.replay = .fulfilled d →
      (respondToError st e env).result = .fulfilled d) ∧
    (∀ e2, env.replay = .rejected e2 →
      (respondToError st e env).result = .rejected (.axios e2)) := by
  have h : is401Untried e = true := by
    simp [is401Untried, h1, h2, h3]
  cases hp : env.replay with
  | fulfilled d =>
    refine ⟨?_, ?_, ?_, ?_, ?_⟩ <;>
      simp [respondToError, h, h4, h5, h6, hp]
  | rejected e2 =>
    refine ⟨?_, ?_, ?_, ?_, ?_⟩ <;>
      simp [respondToError, h, h4, h5, h6, hp]

/-- C2 witness: the `[401, refresh-success, 200]` scenario — the caller
observes the 200 body and storage ends with the new credential pair. -/
theorem refresh_success_replays_witness :
    (respondToError stFull eFirst envOk).result = .fulfilled (.str "okBody") ∧
    (respondToError stFull eFirst envOk).storage.accessToken = some "newA" ∧
    (respondToError stFull eFirst envOk).storage.refreshToken = some "newR" := by
  have h := refresh_success_replays stFull eFirst envOk
    ⟨401, none⟩ "oldR" "newA" "newR" rfl rfl rfl rfl rfl (by decide)
  refine ⟨h.2.2.2.1 (.str "okBody") rfl, ?_, ?_⟩
  · rw [h.1]
    decide
  · rw [h.1]
    decide

/-! ## C6 — 401 with no refresh token in storage -/

/-- C6 (amended) — On a first 401 with no refresh token in storage the
interceptor makes no network call, but it clears the stored credential
pair and rejects a fresh `Error("No refresh token available")` — not the
original 401 error. -/
theorem no_refresh_token_branch (st : Storage) (e : AxiosError) (env : Env)
    (r : HttpResponse) (h1 : e.response = some r) (h2 : r.status = 401)
    (h3 : e.config.retry = false) (h4 : st.refreshToken = none) :
    respondToError st e env =
      ⟨.rejected (.errorMsg "No refresh token available"),
       { st with accessToken := none, refreshToken := none }, [], none⟩ ∧
    refreshCount (respondToError st e env).calls = 0 := by
  have h : is401Untried e = true := by
    simp [is401Untried, h1, h2, h3]
  constructor
  · simp [respondToError, h, h4]
  · simp [respondToError, h, h4, refreshCount]

/-- Storage holding an access token but no refresh token. -/
def stNoRT : Storage := ⟨some "oldA", none, some "alice"⟩

/-- C6 witness: concrete run of the no-refresh-token branch. -/
theorem no_refresh_token_branch_witness :
    respondToError stNoRT eFirst envRefreshFail =
      ⟨.rejected (.errorMsg "No refresh token available"),
       ⟨none, none, some "alice"⟩, [], none⟩ := by
  have h := no_refresh_token_branch stNoRT eFirst envRefreshFail
    ⟨401, none⟩ rfl rfl rfl rfl
  rw [h.1]
  rfl

/-- C6 counterexample: the value rejected in that branch is neither the
original 401 axios error nor its `handleError` normalization — the
original error is not what is propagated, contrary to the claim. -/
theorem no_refresh_token_branch_counterexample :
    ¬ ((respondToError stNoRT eFirst envRefreshFail).result =
        .rejected (.axios eFirst)) ∧
    ¬ ((respondToError stNoRT eFirst envRefreshFail).result =
        .rejected (.errorMsg (handleError eFirst))) := by
  constructor <;> decide

/-! ## C3 — RequestOrchestrator caching contract -/

/-- C3 (amended) — `ApiClient.get` with `useCache = true` returns a fresh
cache entry without a network call only when the cached value is truthy; a
cached falsy value (as a cache miss) leads to the network, a fulfilled
body being stored before it is returned; with `useCache = false` the cache
is neither consulted nor updated; `post` and `delete` never touch the
cache. -/
theorem orchestrator_caching (c : CacheMap) (ep : String) (ps : Params)
    (now : Nat) (net : NetResult) :
    (∀ d c1, cacheGet c weatherMaxAge ep ps now = (some d, c1) → d.truthy = true →
      clientGet c ep ps true now net = ⟨.success d, c1, false⟩) ∧
    (∀ d c1, cacheGet c weatherMaxAge ep ps now = (some d, c1) → d.truthy = false →
      clientGet c ep ps true now net = clientGetNet c1 ep ps true now net) ∧
    (∀ c1, cacheGet c weatherMaxAge ep ps now = (none, c1) →
      clientGet c ep ps true now net = clientGetNet c1 ep ps true now net ∧
      (∀ d, net = .ok d →
        clientGet c ep ps true now net = ⟨.success d, cacheSet c1 ep ps d now, true⟩)) ∧
    ((clientGet c ep ps false now net).cache = c ∧
      (clientGet c ep ps false now net).networkCalled = true) ∧
    ((clientPost c net).cache = c ∧ (clientPost c net).networkCalled = true ∧
      (clientDelete c net).cache = c ∧ (clientDelete c net).networkCalled = true) := by
  refine ⟨?_, ?_, ?_, ?_, ?_⟩
  · intro d c1 hc hd
    simp [clientGet, hc, hd]
  · intro d c1 hc hd
    simp [clientGet, hc, hd]
  · intro c1 hc
    constructor
    · simp [clientGet, hc]
    · intro d hnet
      simp [clientGet, hc, clientGetNet, hnet]
  · cases net with
    | ok d => simp [clientGet, clientGetNet]
    | err e2 => simp [clientGet, clientGetNet]
  · cases net with
    | ok d => simp [clientPost, clientDelete]
    | err e2 => simp [clientPost, clientDelete]

/-- A GET cache holding a fresh truthy entry for `/weather/forecast` with
no parameters, stored at time 0. -/
def freshCache : CacheMap :=
  [(generateKey "/weather/forecast" [], ⟨.str "cachedBody", 0⟩)]

/-- A GET cache whose fresh entry for the same key holds the falsy value
`false`. -/
def falsyCache : CacheMap :=
  [(generateKey "/weather/forecast" [], ⟨.bool false, 0⟩)]

/-- C3 witness: a fresh truthy entry is served without network; a
`useCache = false` call and a `post` leave the cache alone. -/
theorem orchestrator_caching_witness :
    clientGet freshCache "/weather/forecast" [] true 1000 (.ok (.str "other")) =
      ⟨.success (.str "cachedBody"), freshCache, false⟩ ∧
    (clientGet freshCache "/weather/forecast" [] false 1000 (.ok (.str "other"))).cache =
      freshCache ∧
    (clientPost freshCache (.ok (.str "posted"))).cache = freshCache := by
  have h := orchestrator_caching freshCache "/weather/forecast" [] 1000 (.ok (.str "other"))
  exact ⟨h.1 (.str "cachedBody") freshCache (by decide) (by decide),
    h.2.2.2.1.1, h.2.2.2.2.1⟩

/-- C3 counterexample: a fresh cache entry whose value is the falsy
`false` is not returned — the client performs a network call despite the
fresh entry, contrary to the claim. -/
theorem orchestrator_caching_counterexample :
    ¬ ((clientGet falsyCache "/weather/forecast" [] true 1000
          (.ok (.str "fresh"))).networkCalled = false) ∧
    ¬ ((clientGet falsyCache "/weather/forecast" [] true 1000
          (.ok (.str "fresh"))).result = .success (.bool false)) := by
  constructor <;> decide

/-! ## C4 — cache expiry -/

/-- A deleted key is gone from the map. -/
theorem mapLookup_mapErase (c : CacheMap) (k : String) :
    mapLookup (mapErase c k) k = none := by
  induction c with
  | nil => rfl
  | cons p t ih =>
    rcases p with ⟨pk, pv⟩
    by_cases hp : pk = k
    · simpa [mapErase, List.filter_cons, hp, mapLookup] using ih
    · have hb : (k == pk) = false := by
        simp
        intro hkk
        exact hp hkk.symm
      simpa [mapErase, List.filter_cons, hp, mapLookup, List.lookup, hb] using ih

/-- A fresh `set` is found by `lookup`. -/
theorem mapLookup_cacheSet (c : CacheMap) (ep : String) (ps : Params)
    (d : JsonVal) (T : Nat) :
    mapLookup (cacheSet c ep ps d T) (generateKey ep ps) = some ⟨d, T⟩ := by
  simp [cacheSet, mapSet, mapLookup, List.lookup]

/-- C4 (amended) — Expiry behaviour of the three cache instances.  The
generic GET cache (`WeatherCache`, maxAge 10 min): a value stored at time
T is returned unchanged by every read at `T + Δ` with `Δ ≤ maxAge`, and a
read with `Δ > maxAge` returns absent and deletes the entry at that moment
(lazy eviction on lookup).  The user-preferences cache (5 min) and the
OpenAPI-schema cache (30 min) treat an entry as valid only while
`now - storedAt < maxAge` (strict — at `Δ = maxAge` the entry is already
stale), and a stale entry is not deleted on lookup: it is bypassed and
survives a failing fetch. -/
theorem cache_expiry (c : CacheMap) (maxAge : Nat) (ep : String) (ps : Params)
    (d : JsonVal) (T Δ : Nat) (pc sc : SingleCache) (gc : CacheMap)
    (net : NetResult) :
    (Δ ≤ maxAge →
      cacheGet (cacheSet c ep ps d T) maxAge ep ps (T + Δ) =
        (some d, cacheSet c ep ps d T)) ∧
    (Δ > maxAge →
      cacheGet (cacheSet c ep ps d T) maxAge ep ps (T + Δ) =
        (none, mapErase (cacheSet c ep ps d T) (generateKey ep ps)) ∧
      mapLookup (cacheGet (cacheSet c ep ps d T) maxAge ep ps (T + Δ)).2
        (generateKey ep ps) = none) ∧
    (∀ dp, pc.data = some dp → dp.truthy = true → Δ < prefsMaxAge →
      getPreferences pc gc (pc.timestamp + Δ) net = ⟨.success dp, pc, gc, false⟩) ∧
    (∀ dp, pc.data = some dp → Δ ≥ prefsMaxAge →
      getPreferences pc gc (pc.timestamp + Δ) net =
        prefsFetch pc gc (pc.timestamp + Δ) net ∧
      (∀ e2, net = .err e2 →
        (getPreferences pc [] (pc.timestamp + Δ) net).prefs = pc)) ∧
    (∀ ds, sc.data = some ds → ds.truthy = true → Δ < schemaMaxAge →
      getOpenAPISchema sc (sc.timestamp + Δ) net = ⟨.success ds, sc, false⟩) ∧
    (∀ ds, sc.data = some ds → Δ ≥ schemaMaxAge →
      getOpenAPISchema sc (sc.timestamp + Δ) net =
        schemaFetch sc (sc.timestamp + Δ) net ∧
      (∀ e2, net = .err e2 →
        (getOpenAPISchema sc (sc.timestamp + Δ) net).schema = sc)) ∧
    (weatherMaxAge = 600000 ∧ prefsMaxAge = 300000 ∧ schemaMaxAge = 1800000) := by
  refine ⟨?_, ?_, ?_, ?_, ?_, ?_, by refine ⟨rfl, rfl, rfl⟩⟩
  · intro hle
    have hgt : ¬ (maxAge < Δ) := by omega
    simp [cacheGet, mapLookup_cacheSet, hgt]
  · intro hgt
    constructor
    · simp [cacheGet, mapLookup_cacheSet, hgt]
    · simp [cacheGet, mapLookup_cacheSet, hgt, mapLookup_mapErase]
  · intro dp hdp htr hfresh
    simp [getPreferences, hdp, htr, hfresh]
  · intro dp hdp hstale
    have ht : ¬ (Δ < prefsMaxAge) := by omega
    constructor
    · simp [getPreferences, hdp, ht]
    · intro e2 hnet
      simp [getPreferences, hdp, ht, prefsFetch, clientGet, cacheGet, mapLookup,
        List.lookup, clientGetNet, hnet]
  · intro ds hds htr hfresh
    simp [getOpenAPISchema, hds, htr, hfresh]
  · intro ds hds hstale
    have ht : ¬ (Δ < schemaMaxAge) := by omega
    constructor
    · simp [getOpenAPISchema, hds, ht]
    · intro e2 hnet
      simp [getOpenAPISchema, hds, ht, schemaFetch, hnet]

/-- C4 witness: a value set in the generic cache at T = 100 is still
served at `Δ = maxAge` and evicted at `Δ = maxAge + 1`; the preferences
cache serves a 4:59.999-old entry and bypasses (without deleting) a stale
one on a failing fetch; the schema cache serves a fresh entry. -/
theorem cache_expiry_witness :
    cacheGet (cacheSet [] "/e" [] (.str "v") 100) weatherMaxAge "/e" []
        (100 + 600000) = (some (.str "v"), cacheSet [] "/e" [] (.str "v") 100) ∧
    mapLookup (cacheGet (cacheSet [] "/e" [] (.str "v") 100) weatherMaxAge "/e" []
        (100 + 600001)).2 (generateKey "/e" []) = none ∧
    getPreferences ⟨some (.str "p"), 7⟩ [] (7 + 299999) (.err eRefreshFail) =
      ⟨.success (.str "p"), ⟨some (.str "p"), 7⟩, [], false⟩ ∧
    (getPreferences ⟨some (.str "p"), 7⟩ [] (7 + 300000)
        (.err eRefreshFail)).prefs = ⟨some (.str "p"), 7⟩ ∧
    getOpenAPISchema ⟨some (.str "s"), 3⟩ (3 + 1799999) (.err eRefreshFail) =
      ⟨.success (.str "s"), ⟨some (.str "s"), 3⟩, false⟩ := by
  refine ⟨?_, ?_, ?_, ?_, ?_⟩
  · exact (cache_expiry [] weatherMaxAge "/e" [] (.str "v") 100 600000
      ⟨none, 0⟩ ⟨none, 0⟩ [] (.err eRefreshFail)).1 (by decide)
  · exact (cache_expiry [] weatherMaxAge "/e" [] (.str "v") 100 600001
      ⟨none, 0⟩ ⟨none, 0⟩ [] (.err eRefreshFail)).2.1 (by decide) |>.2
  · exact (cache_expiry [] weatherMaxAge "/e" [] (.str "v") 100 299999
      ⟨some (.str "p"), 7⟩ ⟨none, 0⟩ [] (.err eRefreshFail)).2.2.1
      (.str "p") rfl (by decide) (by decide)
  · exact ((cache_expiry [] weatherMaxAge "/e" [] (.str "v") 100 300000
      ⟨some (.str "p"), 7⟩ ⟨none, 0⟩ [] (.err eRefreshFail)).2.2.2.1
      (.str "p") rfl (by decide)).2 eRefreshFail rfl
  · exact (cache_expiry [] weatherMaxAge "/e" [] (.str "v") 100 1799999
      ⟨none, 0⟩ ⟨some (.str "s"), 3⟩ [] (.err eRefreshFail)).2.2.2.2.1
      (.str "s") rfl (by decide) (by decide)

/-- C4 counterexample: at exactly `Δ = maxAge` the preferences cache — in
which the claim's "valid exactly while now - storedAt <= maxAge" would
still be valid — already refetches instead of returning the stored value,
and after a stale read the entry is not deleted (it survives a failing
fetch), contrary to "returns absent and deletes the entry at that
moment". -/
theorem cache_expiry_counterexample :
    ¬ ((getPreferences ⟨some (.str "p"), 0⟩ [] prefsMaxAge
          (.ok (.str "freshBody"))).result = .success (.str "p")) ∧
    ¬ ((getPreferences ⟨some (.str "p"), 0⟩ [] (prefsMaxAge + 1)
          (.err eRefreshFail)).prefs.data = none) := by
  constructor <;> decide

/-! ## C7 — logout -/

/-- C7 (amended) — `logout` attempts the remote invalidation exactly when
an access token is stored and tolerates any outcome of it (the resulting
state is independent of the network), then clears the local credential
pair, the username and the user-preferences cache; the OpenAPI-schema
cache and the generic `ApiClient` GET cache are left as they were, so a
subsequent `getPreferences()` bypasses the preferences cache but is forced
to the network only when the generic cache has no fresh truthy entry for
the preferences endpoint. -/
theorem logout_clears (s : AppState) (net : NetResult) :
    (logout s net).1 = ⟨⟨none, none, none⟩, none, ⟨none, 0⟩, s.schema, s.generic⟩ ∧
    (logout s net).2 = s.storage.accessToken.isSome ∧
    (∀ net2, (logout s net).1 = (logout s net2).1) ∧
    (∀ now net3,
      mapLookup (logout s net).1.generic (generateKey "/v1/user/preferences" []) = none →
      (getPreferences (logout s net).1.prefs (logout s net).1.generic
        now net3).networkCalled = true) := by
  refine ⟨rfl, rfl, fun net2 => rfl, ?_⟩
  intro now net3 hmiss
  simp only [logout] at hmiss ⊢
  cases net3 with
  | ok d =>
    simp [getPreferences, prefsFetch, clientGet, cacheGet, hmiss, clientGetNet]
  | err e2 =>
    simp [getPreferences, prefsFetch, clientGet, cacheGet, hmiss, clientGetNet]

/-- A logged-in state whose generic GET cache still holds a fresh entry
for the preferences endpoint and whose schema cache is populated. -/
def preLogoutState : AppState :=
  ⟨⟨some "oldA", some "oldR", some "alice"⟩, some "alice",
   ⟨some (.str "prefsBody"), 0⟩, ⟨some (.str "schemaDoc"), 0⟩,
   [(generateKey "/v1/user/preferences" [], ⟨.str "prefsBody", 0⟩)]⟩

/-- A logged-in state with an empty generic GET cache. -/
def preLogoutStateEmptyCache : AppState :=
  ⟨⟨some "oldA", some "oldR", some "alice"⟩, some "alice",
   ⟨some (.str "prefsBody"), 0⟩, ⟨some (.str "schemaDoc"), 0⟩, []⟩

/-- C7 witness: a concrete logout clears the pair, the username and the
preferences cache, attempted the remote call, and — with an empty generic
cache — the next `getPreferences()` goes to the network. -/
theorem logout_clears_witness :
    (logout preLogoutStateEmptyCache (.ok (.str "bye"))).1 =
      ⟨⟨none, none, none⟩, none, ⟨none, 0⟩, ⟨some (.str "schemaDoc"), 0⟩, []⟩ ∧
    (logout preLogoutStateEmptyCache (.ok (.str "bye"))).2 = true ∧
    (getPreferences (logout preLogoutStateEmptyCache (.ok (.str "bye"))).1.prefs
      (logout preLogoutStateEmptyCache (.ok (.str "bye"))).1.generic
      1000 (.ok (.str "freshPrefs"))).networkCalled = true := by
  have h := logout_clears preLogoutStateEmptyCache (.ok (.str "bye"))
  exact ⟨h.1, h.2.1, h.2.2.2 1000 (.ok (.str "freshPrefs")) rfl⟩

/-- C7 counterexample: after logging out from `preLogoutState`, the schema
cache still holds its document (not all specialized caches are cleared),
and a subsequent `getPreferences()` is served the previously cached
preferences body from the generic GET cache without any network call —
contrary to the claim that it must go to the network. -/
theorem logout_clears_counterexample :
    ¬ ((logout preLogoutState (.ok (.str "bye"))).1.schema.data = none) ∧
    ¬ ((getPreferences (logout preLogoutState (.ok (.str "bye"))).1.prefs
          (logout preLogoutState (.ok (.str "bye"))).1.generic
          1000 (.ok (.str "freshPrefs"))).networkCalled = true) ∧
    (getPreferences (logout preLogoutState (.ok (.str "bye"))).1.prefs
        (logout preLogoutState (.ok (.str "bye"))).1.generic
        1000 (.ok (.str "freshPrefs"))).result = .success (.str "prefsBody") := by
  refine ⟨by decide, by decide, by decide⟩

/-! ## C8 — session-identity invariant -/

/-- C8 (amended) — Of the operations that clear the credential pair,
`AuthProvider.logout`, `AuthProvider.refreshToken` failure and the
startup-validation (`checkAuth`) failure paths also clear the stored
username, but the `ApiClient` interceptor's refresh-failure path removes
only `accessToken` and `refreshToken` and leaves the stored username in
place. -/
theorem credential_clear_username (st : Storage) (e : AxiosError) (env : Env)
    (user : Option String) (now : Nat) :
    (∀ r rt fe, e.response = some r → r.status = 401 → e.config.retry = false →
      st.refreshToken = some rt → env.refresh = .err fe →
      (respondToError st e env).storage =
        { st with accessToken := none, refreshToken := none }) ∧
    (∀ net st2 u2, authRefresh st user net = .fail st2 u2 →
      st2 = ⟨none, none, none⟩ ∧ u2 = none) ∧
    (∀ s netR, (logout s netR).1.storage = ⟨none, none, none⟩) ∧
    (∀ tok, st.accessToken = some tok → st.username = none →
      checkAuth st now none env.refresh = (⟨none, none, none⟩, none)) ∧
    (∀ tok u ex fe, st.accessToken = some tok → st.username = some u →
      now > ex - 5 * 60 * 1000 → env.refresh = .err fe →
      checkAuth st now (some ex) env.refresh = (⟨none, none, none⟩, none)) := by
  refine ⟨?_, ?_, fun s netR => rfl, ?_, ?_⟩
  · intro r rt fe hresp hstat hretry hrt hr
    have h : is401Untried e = true := by
      simp [is401Untried, hresp, hstat, hretry]
    simp [respondToError, h, hrt, hr]
  · intro net st2 u2 hfail
    cases hrt : st.refreshToken with
    | none =>
      simp [authRefresh, hrt] at hfail
      exact ⟨hfail.1.symm, hfail.2.symm⟩
    | some rt =>
      cases hn : net with
      | ok a r => simp [authRefresh, hrt, hn] at hfail
      | err fe =>
        simp [authRefresh, hrt, hn] at hfail
        exact ⟨hfail.1.symm, hfail.2.symm⟩
  · intro tok htok hun
    simp [checkAuth, htok, hun]
  · intro tok u ex fe htok hun hexp hr
    cases hrt : st.refreshToken with
    | none => simp [checkAuth, htok, hun, hexp, authRefresh, hrt]
    | some rt => simp [checkAuth, htok, hun, hexp, authRefresh, hrt, hr]

/-- C8 witness: concrete runs of all four clearing operations — the three
session-layer ones end with no username, the interceptor path keeps it. -/
theorem credential_clear_username_witness :
    (respondToError stFull eFirst envRefreshFail).storage =
      ⟨none, none, some "alice"⟩ ∧
    (∀ st2 u2, authRefresh stFull (some "alice") (.err eRefreshFail) = .fail st2 u2 →
      st2 = ⟨none, none, none⟩ ∧ u2 = none) ∧
    (logout preLogoutState (.ok (.str "bye"))).1.storage = ⟨none, none, none⟩ ∧
    checkAuth ⟨some "oldA", some "oldR", none⟩ 0 none (.err eRefreshFail) =
      (⟨none, none, none⟩, none) ∧
    checkAuth stFull 1000000000 (some 1000) (.err eRefreshFail) =
      (⟨none, none, none⟩, none) := by
  have h1 := credential_clear_username stFull eFirst envRefreshFail (some "alice") 1000000000
  have h2 := credential_clear_username ⟨some "oldA", some "oldR", none⟩ eFirst
    envRefreshFail (some "alice") 0
  refine ⟨?_, h1.2.1 (.err eRefreshFail), h1.2.2.1 preLogoutState (.ok (.str "bye")),
    h2.2.2.2.1 "oldA" rfl rfl, h1.2.2.2.2 "oldA" "alice" 1000 eRefreshFail rfl rfl (by decide) rfl⟩
  exact h1.1 ⟨401, none⟩ "oldR" eRefreshFail rfl rfl rfl rfl rfl

/-- C8 counterexample: in the interceptor's refresh-failure path the
credential pair is cleared from storage while the username survives —
the session identity outlives the credential pair, contrary to the
claimed invariant. -/
theorem credential_clear_username_counterexample :
    ¬ (((respondToError stFull eFirst envRefreshFail).storage.accessToken = none ∧
        (respondToError stFull eFirst envRefreshFail).storage.refreshToken = none) →
       (respondToError stFull eFirst envRefreshFail).storage.username = none) := by
  decide

/-! ## C9 — malformed login guarded client-side -/

/-- C9 — The login flow invoked with an empty username and an empty
password fails with a client-side form-validation error ("Username is
required") before `login` is ever called, so no request is sent to the
server for this input. -/
theorem malformed_login_guarded :
    handleSubmit "" "" = .formError "Username is required" ∧
    submitNetworkCalls "" "" = 0 := by
  constructor <;> rfl

/-! ## C10 — falsy forecast parameters are dropped -/

/-- Every entry a `keepIf` contributes carries that field's name and a
truthy value taken from the field. -/
theorem mem_keepIf {kv : String × JsonVal} {name : String} {v : Option JsonVal}
    (h : kv ∈ keepIf name v) : kv.1 = name ∧ kv.2.truthy = true ∧ v = some kv.2 := by
  cases v with
  | none => simp [keepIf] at h
  | some x =>
    by_cases hx : x.truthy
    · simp only [keepIf, hx, if_true, List.mem_singleton] at h
      subst h
      exact ⟨rfl, hx, rfl⟩
    · simp [keepIf, hx] at h

/-- C10 — `weatherApi.getForecast` silently drops every falsy parameter:
each entry of the filtered map is truthy, and in particular a latitude or
longitude of 0 and empty-string `zipCode` / `cityName` / `cityId` never
appear among the outgoing query parameters, so a forecast query for
coordinate 0 cannot be expressed. -/
theorem forecast_falsy_params (p : ForecastParams) :
    (∀ kv, kv ∈ filterForecastParams p → kv.2.truthy = true) ∧
    (p.lat = some (.num 0) → ¬ ("lat" ∈ (filterForecastParams p).map Prod.fst)) ∧
    (p.lon = some (.num 0) → ¬ ("lon" ∈ (filterForecastParams p).map Prod.fst)) ∧
    (p.zipCode = some (.str "") →
      ¬ ("zip_code" ∈ (filterForecastParams p).map Prod.fst)) ∧
    (p.cityName = some (.str "") →
      ¬ ("city_name" ∈ (filterForecastParams p).map Prod.fst)) ∧
    (p.cityId = some (.str "") →
      ¬ ("city_id" ∈ (filterForecastParams p).map Prod.fst)) := by
  have hmem : ∀ k, k ∈ (filterForecastParams p).map Prod.fst →
      (k = "lat" ∧ JsonVal.truthy ((p.lat).getD .null) = true ∨
       k = "lon" ∧ JsonVal.truthy ((p.lon).getD .null) = true ∨
       k = "zip_code" ∧ JsonVal.truthy ((p.zipCode).getD .null) = true ∨
       k = "city_name" ∧ JsonVal.truthy ((p.cityName).getD .null) = true ∨
       k = "city_id" ∧ JsonVal.truthy ((p.cityId).getD .null) = true) := by
    intro k hk
    rcases List.mem_map.mp hk with ⟨kv, hkv, hfst⟩
    simp only [filterForecastParams, List.mem_append] at hkv
    rcases hkv with ((((h|h)|h)|h)|h) <;>
      rcases mem_keepIf h with ⟨hname, htr, hv⟩
    · exact Or.inl ⟨hfst ▸ hname, by rw [hv]; simpa using htr⟩
    · exact Or.inr (Or.inl ⟨hfst ▸ hname, by rw [hv]; simpa using htr⟩)
    · exact Or.inr (Or.inr (Or.inl ⟨hfst ▸ hname, by rw [hv]; simpa using htr⟩))
    · exact Or.inr (Or.inr (Or.inr (Or.inl ⟨hfst ▸ hname, by rw [hv]; simpa using htr⟩)))
    · exact Or.inr (Or.inr (Or.inr (Or.inr ⟨hfst ▸ hname, by rw [hv]; simpa using htr⟩)))
  refine ⟨?_, ?_, ?_, ?_, ?_, ?_⟩
  · intro kv hkv
    simp only [filterForecastParams, List.mem_append] at hkv
    rcases hkv with ((((h|h)|h)|h)|h) <;> exact (mem_keepIf h).2.1
  · intro hlat hin
    rcases hmem "lat" hin with (⟨_, htr⟩|(⟨hk, _⟩|(⟨hk, _⟩|(⟨hk, _⟩|⟨hk, _⟩))))
    · rw [hlat] at htr
      simp [JsonVal.truthy] at htr
    all_goals exact absurd hk (by decide)
  · intro hlon hin
    rcases hmem "lon" hin with (⟨hk, _⟩|(⟨_, htr⟩|(⟨hk, _⟩|(⟨hk, _⟩|⟨hk, _⟩))))
    · exact absurd hk (by decide)
    · rw [hlon] at htr
      simp [JsonVal.truthy] at htr
    all_goals exact absurd hk (by decide)
  · intro hzip hin
    rcases hmem "zip_code" hin with (⟨hk, _⟩|(⟨hk, _⟩|(⟨_, htr⟩|(⟨hk, _⟩|⟨hk, _⟩))))
    · exact absurd hk (by decide)
    · exact absurd hk (by decide)
    · rw [hzip] at htr
      simp [JsonVal.truthy] at htr
    all_goals exact absurd hk (by decide)
  · intro hcity hin
    rcases hmem "city_name" hin with (⟨hk, _⟩|(⟨hk, _⟩|(⟨hk, _⟩|(⟨_, htr⟩|⟨hk, _⟩))))
    · exact absurd hk (by decide)
    · exact absurd hk (by decide)
    · exact absurd hk (by decide)
    · rw [hcity] at htr
      simp [JsonVal.truthy] at htr
    · exact absurd hk (by decide)
  · intro hcid hin
    rcases hmem "city_id" hin with (⟨hk, _⟩|(⟨hk, _⟩|(⟨hk, _⟩|(⟨hk, _⟩|⟨_, htr⟩))))
    · exact absurd hk (by decide)
    · exact absurd hk (by decide)
    · exact absurd hk (by decide)
    · exact absurd hk (by decide)
    · rw [hcid] at htr
      simp [JsonVal.truthy] at htr

/-- A forecast request for the equator/prime-meridian origin with an empty
zip code and a city name. -/
def pZero : ForecastParams :=
  ⟨some (.num 0), some (.num 0), some (.str ""), some (.str "London"), none⟩

/-- C10 witness: for `pZero` the `lat`, `lon` and `zip_code` fields are
dropped and only the city name survives. -/
theorem forecast_falsy_params_witness :
    ¬ ("lat" ∈ (filterForecastParams pZero).map Prod.fst) ∧
    ¬ ("lon" ∈ (filterForecastParams pZero).map Prod.fst) ∧
    ¬ ("zip_code" ∈ (filterForecastParams pZero).map Prod.fst) ∧
    filterForecastParams pZero = [("city_name", .str "London")] :=
  ⟨(forecast_falsy_params pZero).2.1 rfl,
   (forecast_falsy_params pZero).2.2.1 rfl,
   (forecast_falsy_params pZero).2.2.2.1 rfl,
   by decide⟩

end NSFWeather
